import Mathlib

set_option maxRecDepth 100000
set_option maxHeartbeats 2000000
set_option linter.unusedVariables false

/-!
Verification development for the report-generation core of the repository
(`src/research_engine.py`): the `PromptEngine` prompt builders, the
`ResearchService` fallback generator, the external-call path
`_try_openai_json`, and the orchestrator `generate_report`.

Python values handled by the service are JSON-shaped, so we embed them as a
`JsonV` tree.  Python exceptions are embedded as an explicit `PyExn` type and
fallible code returns `Except PyExn`.  The process environment (environment
variables and the outcome of the single outbound HTTP call) is embedded as an
explicit `Env` record passed to the functions that read it in the source.
-/

/-- A JSON value, the shape of every Python value the service manipulates.
Numbers are embedded as integers: the service never produces or inspects a
fractional number on any path modelled here. -/
inductive JsonV where
  | null : JsonV
  | bool : Bool → JsonV
  | num : Int → JsonV
  | str : String → JsonV
  | arr : List JsonV → JsonV
  | obj : List (String × JsonV) → JsonV
deriving Repr

/-- The Python exceptions reachable in `_try_openai_json`. -/
inductive PyExn where
  | urlError
  | httpError
  | timeoutError
  | keyError
  | indexError
  | typeError
  | attributeError
  | jsonDecodeError
  | unicodeDecodeError
deriving Repr, DecidableEq

/-- The exceptions named by the `except` clause at
`src/research_engine.py:188`:
`(error.URLError, error.HTTPError, KeyError, json.JSONDecodeError, TimeoutError)`.
`IndexError`, `TypeError`, `AttributeError` and `UnicodeDecodeError` are not
in the tuple and therefore propagate. -/
def caughtByExcept : PyExn → Bool
  | .urlError => true
  | .httpError => true
  | .timeoutError => true
  | .keyError => true
  | .jsonDecodeError => true
  | _ => false

/-! ### Python string primitives

`textwrap.dedent` and `str.strip` as used by `PromptEngine`.  Characters are
handled as `List Char`; the relevant template strings are ASCII, so Python
whitespace is the six ASCII whitespace characters. -/
/-- The characters `[ \t]` that `textwrap.dedent` treats as indentation. -/
def isIndentChar (c : Char) : Bool := c == ' ' || c == '\t'

/-- ASCII whitespace stripped by Python `str.strip`. -/
def pyWsChar (c : Char) : Bool :=
  c == ' ' || c == '\t' || c == '\n' || c == '\r' || c == '\x0b' || c == '\x0c'

/-- Split a character list on newline characters, as `text.split('\n')`. -/
def splitLines : List Char → List (List Char)
  | [] => [[]]
  | c :: rest =>
    if c == '\n' then [] :: splitLines rest
    else
      match splitLines rest with
      | [] => [[c]]
      | l :: ls => (c :: l) :: ls

/-- Re-join lines with newline characters, as `'\n'.join(lines)`. -/
def joinLines : List (List Char) → List Char
  | [] => []
  | [l] => l
  | l :: ls => l ++ '\n' :: joinLines ls

/-- `dedent`: a line matching `^[ \t]+$` (non-empty, all indentation). -/
def wsOnly (l : List Char) : Bool := !l.isEmpty && l.all isIndentChar

/-- `dedent` step 1: whitespace-only lines are normalized to empty lines
(`_whitespace_only_re.sub('', text)`). -/
def normalizeWs (l : List Char) : List Char := if wsOnly l then [] else l

/-- The leading `[ \t]*` run of a line, as matched by
`dedent`'s `_leading_whitespace_re`. -/
def indentOf (l : List Char) : List Char := l.takeWhile isIndentChar

/-- Longest common prefix of two character lists; `dedent`'s margin fold
computes exactly this. -/
def commonPfx : List Char → List Char → List Char
  | a :: as, b :: bs => if a == b then a :: commonPfx as bs else []
  | _, _ => []

/-- `dedent`'s margin: the longest common prefix of the indents of all lines
that still have content after step 1. -/
def marginOf (indents : List (List Char)) : List Char :=
  match indents with
  | [] => []
  | i :: is => is.foldl commonPfx i

/-- `dedent` step 3 applied to one line: `re.sub(r'(?m)^' + margin, '', …)`
removes the margin where the line starts with it. -/
def stripMargin (margin l : List Char) : List Char :=
  if margin.isPrefixOf l then l.drop margin.length else l

/-- `textwrap.dedent` on a line list: normalize whitespace-only lines,
compute the margin from the remaining non-empty lines, and strip it. -/
def dedentLines (lines : List (List Char)) : List (List Char) :=
  let ls := lines.map normalizeWs
  let margin := marginOf ((ls.filter (fun l => !l.isEmpty)).map indentOf)
  if margin.isEmpty then ls else ls.map (stripMargin margin)

/-- `textwrap.dedent` on a string. -/
def pyDedent (s : String) : String :=
  ⟨joinLines (dedentLines (splitLines s.data))⟩

/-- Drop trailing Python whitespace (the right half of `str.strip`). -/
def rstripL : List Char → List Char
  | [] => []
  | c :: rest =>
    match rstripL rest with
    | [] => if pyWsChar c then [] else [c]
    | r => c :: r

/-- Python `str.strip()`: drop leading and trailing whitespace. -/
def pyStrip (s : String) : String := ⟨rstripL (s.data.dropWhile pyWsChar)⟩

/-! ### PromptEngine (`src/research_engine.py:8-43`) -/
/-- `PromptEngine.build_system_prompt`: `dedent("""…""").strip()` of the fixed
system instruction. -/
def build_system_prompt : String :=
  pyStrip (pyDedent ("\n            You are a scientific research assistant for students.\n            Produce rigorous yet easy-to-understand outputs.\n            Include evidence-oriented literature analysis, research gap detection,\n            a feasible student-level methodology, simulated quantitative results,\n            references, PPT outline, viva questions, and tools/datasets suggestions.\n            Return valid JSON only.\n            "))

/-- `PromptEngine.build_user_prompt`: `dedent(f"""…""").strip()` with `topic`
and `query` interpolated by the f-string before `dedent` runs. -/
def build_user_prompt (topic query : String) : String :=
  pyStrip (pyDedent ("\n            Student topic: " ++ topic ++ "\n            Student research query: " ++ query ++ "\n\n            Return JSON with these keys exactly:\n            abstract, introduction, literature_review, research_gaps,\n            methodology, simulated_results, conclusion, references,\n            ppt_outline, viva_questions, datasets_and_tools.\n\n            Requirements:\n            - literature_review must include source + finding entries from: Google Scholar, IEEE Xplore, PubMed\n            - methodology must include design + steps\n            - simulated_results must include summary + table[] with metric, baseline, proposed\n            - references must be a list of citation strings\n            - datasets_and_tools must include datasets[] and tools[]\n            "))

/-! ### Dict and truthiness primitives -/
/-- Lookup in a Python dict embedded as an ordered association list. -/
def objLookup : List (String × JsonV) → String → Option JsonV
  | [], _ => none
  | (k, v) :: rest, key => if k == key then some v else objLookup rest key

/-- Python dict item assignment `d[key] = v`: replace in place when the key
exists, otherwise append (insertion order preserved). -/
def objSetItem (fields : List (String × JsonV)) (key : String) (v : JsonV) :
    List (String × JsonV) :=
  if fields.any (fun p => p.1 == key) then
    fields.map (fun p => if p.1 == key then (key, v) else p)
  else fields ++ [(key, v)]

/-- Python truthiness of a JSON-shaped value (`if external:` at
`src/research_engine.py:196`). -/
def pyTruthy : JsonV → Bool
  | .null => false
  | .bool b => b
  | .num n => n != 0
  | .str s => !s.isEmpty
  | .arr l => !l.isEmpty
  | .obj f => !f.isEmpty

/-! ### ResearchService: required keys and fallback generator
(`src/research_engine.py:49-152`) -/
/-- `ResearchService.REQUIRED_KEYS` (a Python set; embedded as a list, used
only through membership tests). -/
def REQUIRED_KEYS : List String :=
  ["abstract", "introduction", "literature_review", "research_gaps",
   "methodology", "simulated_results", "conclusion", "references",
   "ppt_outline", "viva_questions", "datasets_and_tools"]

/-- `ResearchService._simulate_sources`: the three fixed literature entries,
parameterized by topic. -/
def simulate_sources (topic : String) : List JsonV :=
  [.obj [("source", .str "Google Scholar"),
         ("finding", .str ("Recent studies on " ++ topic ++ " show measurable gains from hybrid and retrieval-augmented AI pipelines."))],
   .obj [("source", .str "IEEE Xplore"),
         ("finding", .str ("Engineering papers report trade-offs between model accuracy, latency, and deployment cost in " ++ topic ++ " systems."))],
   .obj [("source", .str "PubMed"),
         ("finding", .str ("Human-impact studies emphasize ethics, safety, and reproducibility for " ++ topic ++ "-related interventions."))]]

/-- The dict literal returned by `ResearchService._fallback_report`
(`src/research_engine.py:80-152`), in source order. -/
def fallback_report_fields (topic query : String) : List (String × JsonV) :=
  [("abstract", .str ("This project investigates " ++ topic ++ " with a scientist-style workflow. It addresses \x27" ++ query ++ "\x27 through literature synthesis, gap detection, and a practical student-level methodology.")),
   ("introduction", .str (topic ++ " is an important research area in both academia and industry. This report explains the current state of knowledge and where a student can contribute new findings.")),
   ("literature_review", .arr (simulate_sources topic)),
   ("research_gaps", .arr
     [.str "Limited benchmarking in low-resource student lab environments.",
      .str "Inconsistent reproducibility due to missing open protocols and code-sharing.",
      .str "Few studies jointly evaluate technical performance and real-world usability."]),
   ("methodology", .obj
     [("design", .str "Mixed-method design: quantitative model benchmarking plus qualitative expert/student feedback."),
      ("steps", .arr
        [.str "Collect and preprocess open datasets relevant to the topic.",
         .str "Implement baseline methods and at least one improved approach.",
         .str "Measure performance with Accuracy, F1, precision/recall, and latency.",
         .str "Analyze error patterns and compare findings with published work.",
         .str "Summarize limitations and propose future experiments."])]),
   ("simulated_results", .obj
     [("summary", .str "The proposed method is expected to improve baseline quality metrics while maintaining practical inference speed."),
      ("table", .arr
        [.obj [("metric", .str "Accuracy"), ("baseline", .str "78%"), ("proposed", .str "86%")],
         .obj [("metric", .str "F1 Score"), ("baseline", .str "0.74"), ("proposed", .str "0.83")],
         .obj [("metric", .str "Latency"), ("baseline", .str "210ms"), ("proposed", .str "185ms")]])]),
   ("conclusion", .str ("The study offers a feasible roadmap for student research on " ++ topic ++ ". It identifies concrete research gaps and a publishable experiment plan.")),
   ("references", .arr
     [.str ("A. Kumar et al. (2023). Advances in " ++ topic ++ ". Journal of Student Research, 12(4), 1-20."),
      .str ("L. Chen & P. Smith (2022). Benchmarking " ++ topic ++ " systems under practical constraints. IEEE Learning Systems."),
      .str ("R. Diaz et al. (2024). Reproducibility and ethics in " ++ topic ++ ". International Review of Applied AI.")]),
   ("ppt_outline", .arr
     [.str "Problem statement and motivation",
      .str "Literature landscape and gap analysis",
      .str "Research objectives and hypotheses",
      .str "Methodology and experimental setup",
      .str "Simulated/expected results",
      .str "Conclusion, limitations, and future work"]),
   ("viva_questions", .arr
     [.str "Why did you choose this topic and what problem does it solve?",
      .str "How is your methodology better or different than prior work?",
      .str "What are the strongest limitations of your current design?",
      .str "How would you validate generalization on larger or noisier datasets?",
      .str "What ethical or bias issues could affect your findings?"]),
   ("datasets_and_tools", .obj
     [("datasets", .arr
        [.str "Kaggle domain datasets",
         .str "UCI Machine Learning Repository",
         .str "Government open-data portals"]),
      ("tools", .arr
        [.str "Python (Pandas, scikit-learn, PyTorch)",
         .str "Jupyter Notebook",
         .str "Zotero or Mendeley",
         .str "Tableau or Power BI"])])]

/-- `ResearchService._fallback_report`: a pure function of (topic, query). -/
def fallback_report (topic query : String) : JsonV :=
  .obj (fallback_report_fields topic query)

/-! ### A model of Python `json.loads`

Strict JSON grammar restricted to what the service can meet on the paths
verified here: objects, arrays, strings with the single-character escape
sequences, integer numbers and the three literals.  `\u` escapes and
fractional/exponent numbers are not modelled.  Duplicate object keys follow
Python dict semantics (the later binding wins).  Fuel-based recursion; the
fuel `length + 1` can never run out before the input does. -/
/-- JSON inter-token whitespace. -/
def jsonWsChar (c : Char) : Bool := c == ' ' || c == '\t' || c == '\n' || c == '\r'

def skipJsonWs (l : List Char) : List Char := l.dropWhile jsonWsChar

/-- Scan a JSON string body after the opening quote; returns the decoded
characters and the input after the closing quote. -/
def scanJsonStr : List Char → Option (List Char × List Char)
  | [] => none
  | '"' :: rest => some ([], rest)
  | '\\' :: '"' :: rest =>
    match scanJsonStr rest with
    | some (s, r) => some ('"' :: s, r)
    | none => none
  | '\\' :: '\\' :: rest =>
    match scanJsonStr rest with
    | some (s, r) => some ('\\' :: s, r)
    | none => none
  | '\\' :: '/' :: rest =>
    match scanJsonStr rest with
    | some (s, r) => some ('/' :: s, r)
    | none => none
  | '\\' :: 'n' :: rest =>
    match scanJsonStr rest with
    | some (s, r) => some ('\n' :: s, r)
    | none => none
  | '\\' :: 't' :: rest =>
    match scanJsonStr rest with
    | some (s, r) => some ('\t' :: s, r)
    | none => none
  | '\\' :: 'r' :: rest =>
    match scanJsonStr rest with
    | some (s, r) => some ('\r' :: s, r)
    | none => none
  | '\\' :: 'b' :: rest =>
    match scanJsonStr rest with
    | some (s, r) => some ('\x08' :: s, r)
    | none => none
  | '\\' :: 'f' :: rest =>
    match scanJsonStr rest with
    | some (s, r) => some ('\x0c' :: s, r)
    | none => none
  | '\\' :: _ => none
  | c :: rest =>
    if c.toNat < 32 then none
    else
      match scanJsonStr rest with
      | some (s, r) => some (c :: s, r)
      | none => none

/-- Scan a run of decimal digits into a natural number. -/
def scanDigits : List Char → Nat → Option (Nat × List Char)
  | [], acc => some (acc, [])
  | c :: rest, acc =>
    if c.isDigit then scanDigits rest (acc * 10 + (c.toNat - 48))
    else some (acc, c :: rest)

/-- Scan an integer JSON number (no fraction/exponent in this model). -/
def scanJsonNum (l : List Char) : Option (Int × List Char) :=
  match l with
  | '-' :: rest =>
    match rest with
    | c :: _ =>
      if c.isDigit then
        match scanDigits rest 0 with
        | some (n, r) => some (-(n : Int), r)
        | none => none
      else none
    | [] => none
  | c :: _ =>
    if c.isDigit then
      match scanDigits l 0 with
      | some (n, r) => some ((n : Int), r)
      | none => none
    else none
  | [] => none

mutual

def parseVal : Nat → List Char → Option (JsonV × List Char)
  | 0, _ => none
  | fuel + 1, l =>
    match skipJsonWs l with
    | 'n' :: 'u' :: 'l' :: 'l' :: rest => some (.null, rest)
    | 't' :: 'r' :: 'u' :: 'e' :: rest => some (.bool true, rest)
    | 'f' :: 'a' :: 'l' :: 's' :: 'e' :: rest => some (.bool false, rest)
    | '"' :: rest =>
      match scanJsonStr rest with
      | some (s, r) => some (.str ⟨s⟩, r)
      | none => none
    | '[' :: rest =>
      match skipJsonWs rest with
      | ']' :: rest2 => some (.arr [], rest2)
      | l2 => parseArrRest fuel [] l2
    | '\x7b' :: rest =>
      match skipJsonWs rest with
      | '\x7d' :: rest2 => some (.obj [], rest2)
      | l2 => parseObjRest fuel [] l2
    | l2 =>
      match scanJsonNum l2 with
      | some (n, r) =>
        match r with
        | c :: _ => if c == '.' || c == 'e' || c == 'E' then none else some (.num n, r)
        | [] => some (.num n, [])
      | none => none

def parseArrRest : Nat → List JsonV → List Char → Option (JsonV × List Char)
  | 0, _, _ => none
  | fuel + 1, acc, l =>
    match parseVal fuel l with
    | none => none
    | some (v, rest) =>
      match skipJsonWs rest with
      | ',' :: rest2 => parseArrRest fuel (acc ++ [v]) rest2
      | ']' :: rest2 => some (.arr (acc ++ [v]), rest2)
      | _ => none

def parseObjRest : Nat → List (String × JsonV) → List Char →
    Option (JsonV × List Char)
  | 0, _, _ => none
  | fuel + 1, acc, l =>
    match skipJsonWs l with
    | '"' :: rest =>
      match scanJsonStr rest with
      | none => none
      | some (k, rest2) =>
        match skipJsonWs rest2 with
        | ':' :: rest3 =>
          match parseVal fuel rest3 with
          | none => none
          | some (v, rest4) =>
            match skipJsonWs rest4 with
            | ',' :: rest5 => parseObjRest fuel (objSetItem acc ⟨k⟩ v) rest5
            | '\x7d' :: rest5 => some (.obj (objSetItem acc ⟨k⟩ v), rest5)
            | _ => none
        | _ => none
    | _ => none

end

/-- `json.loads` on a string: parse one value, allow trailing whitespace,
reject trailing garbage. -/
def jsonParse (s : String) : Option JsonV :=
  match parseVal (s.data.length + 1) s.data with
  | some (v, rest) => if (skipJsonWs rest).isEmpty then some v else none
  | none => none

/-! ### The external call path `_try_openai_json`
(`src/research_engine.py:154-191`) and `generate_report` (193-205) -/
/-- Python subscript `v[key]` with a string key. On a dict: the value or
`KeyError`; on every other JSON-shaped value: `TypeError`. -/
def pyGetItemStr : JsonV → String → Except PyExn JsonV
  | .obj fields, k =>
    match objLookup fields k with
    | some v => .ok v
    | none => .error .keyError
  | _, _ => .error .typeError

/-- Python subscript `v[i]` with a non-negative integer index. On a list or a
string: the element or `IndexError`; on a dict whose keys are strings (every
dict produced by `json.loads`): `KeyError`; otherwise `TypeError`. -/
def pyGetItemNat : JsonV → Nat → Except PyExn JsonV
  | .arr l, i =>
    match l[i]? with
    | some v => .ok v
    | none => .error .indexError
  | .obj _, _ => .error .keyError
  | .str s, i =>
    match s.data[i]? with
    | some c => .ok (.str ⟨[c]⟩)
    | none => .error .indexError
  | _, _ => .error .typeError

/-- `json.loads(content)` at `src/research_engine.py:185`: the argument must
be a string (else `TypeError`); a failed parse raises `JSONDecodeError`. -/
def pyLoads : JsonV → Except PyExn JsonV
  | .str s =>
    match jsonParse s with
    | some v => .ok v
    | none => .error .jsonDecodeError
  | _ => .error .typeError

/-- `hasAllRequiredKeys`: `REQUIRED_KEYS.issubset(set(parsed.keys()))` on the
fields of a parsed dict — a superset check on key names only. -/
def hasAllRequiredKeys (fields : List (String × JsonV)) : Bool :=
  REQUIRED_KEYS.all (fun k => (fields.map Prod.fst).contains k)

/-- Lines 186-191: `set(parsed.keys())` raises `AttributeError` unless
`parsed` is a dict; on a dict the key-set check either returns the parsed
object unchanged (`return parsed`) or falls through to `return None`. -/
def checkRequired : JsonV → Except PyExn (Option JsonV)
  | .obj fields =>
    if hasAllRequiredKeys fields then .ok (some (.obj fields)) else .ok none
  | _ => .error .attributeError

/-- The observable outcome of the single `urlopen` call plus the
`json.loads(response.read().decode("utf-8"))` of its body.  `urlopen` itself
can raise `URLError`, `HTTPError` (non-2xx) or `TimeoutError`; the decode can
raise `UnicodeDecodeError`; the loads can raise `JSONDecodeError`; otherwise
the environment supplies the parsed JSON body. -/
inductive NetResult where
  | transportError
  | httpStatusError
  | timeout
  | bodyNotUtf8
  | bodyNotJson
  | body : JsonV → NetResult

/-- The ambient process state read by the service: `os.getenv` and the
behaviour of the one outbound HTTP call. -/
structure Env where
  getenv : String → Option String
  net : NetResult

/-- `os.getenv(name, default)`. -/
def osGetenv (e : Env) (name default : String) : String :=
  (e.getenv name).getD default

/-- Result of `_try_openai_json` together with the number of network calls
performed (0 or 1 — the source issues at most one `urlopen`). -/
structure TryResult where
  result : Except PyExn (Option JsonV)
  netCalls : Nat

/-- The body of the `try:` suite at `src/research_engine.py:181-191`: the
single `urlopen` with its body decode and parse (modelled by `NetResult`),
then `raw["choices"][0]["message"]["content"]`, `json.loads(content)`, and
the required-key check. -/
def tryBlock (net : NetResult) : Except PyExn (Option JsonV) :=
  match net with
  | .transportError => .error .urlError
  | .httpStatusError => .error .httpError
  | .timeout => .error .timeoutError
  | .bodyNotUtf8 => .error .unicodeDecodeError
  | .bodyNotJson => .error .jsonDecodeError
  | .body raw =>
    match pyGetItemStr raw "choices" with
    | .error e => .error e
    | .ok choices =>
      match pyGetItemNat choices 0 with
      | .error e => .error e
      | .ok first =>
        match pyGetItemStr first "message" with
        | .error e => .error e
        | .ok message =>
          match pyGetItemStr message "content" with
          | .error e => .error e
          | .ok content =>
            match pyLoads content with
            | .error e => .error e
            | .ok parsed => checkRequired parsed

/-- `ResearchService._try_openai_json`.  The key is read and stripped; a
falsy (empty) key short-circuits to `None` with no network call (lines
155-158).  Otherwise the request — model name, the two prompts as a
system/user message pair, temperature, JSON response format (lines 160-179)
— is sent by the single `urlopen`, whose observable outcome `tryBlock`
processes.  Only the exceptions named in the `except` tuple collapse to
`None`; any other exception propagates to the caller. -/
def try_openai_json (env : Env) (topic query : String) : TryResult :=
  if pyStrip (osGetenv env "OPENAI_API_KEY" "") == "" then ⟨.ok none, 0⟩
  else
    match tryBlock env.net with
    | .error e => if caughtByExcept e then ⟨.ok none, 1⟩ else ⟨.error e, 1⟩
    | .ok r => ⟨.ok r, 1⟩

/-- The provenance object attached under `prompt_debug` on the fallback path
(`src/research_engine.py:200-204`). -/
def prompt_debug_obj (topic query : String) : JsonV :=
  .obj [("system_prompt", .str build_system_prompt),
        ("user_prompt", .str (build_user_prompt topic query)),
        ("source", .str "fallback")]

/-- The fallback report after `report["prompt_debug"] = {…}`. -/
def fallback_with_debug (topic query : String) : JsonV :=
  .obj (objSetItem (fallback_report_fields topic query) "prompt_debug"
    (prompt_debug_obj topic query))

/-- `ResearchService.generate_report`: call `_try_openai_json` (an exception
from it propagates); a truthy result is returned as-is, otherwise the
fallback report is built, tagged with `prompt_debug`, and returned. -/
def generate_report (env : Env) (topic query : String) : Except PyExn JsonV :=
  match (try_openai_json env topic query).result with
  | .error e => .error e
  | .ok none => .ok (fallback_with_debug topic query)
  | .ok (some external) =>
    if pyTruthy external then .ok external
    else .ok (fallback_with_debug topic query)

/-! ### Substring containment (Python `in` on strings) -/
/-- `prefixOfL pat l`: `pat` is a prefix of `l`. -/
def prefixOfL : List Char → List Char → Bool
  | [], _ => true
  | _ :: _, [] => false
  | p :: ps, c :: cs => p == c && prefixOfL ps cs

/-- `infixOf pat l`: `pat` occurs contiguously inside `l` (Python
`pat in l`). -/
def infixOf (pat : List Char) : List Char → Bool
  | [] => pat.isEmpty
  | c :: rest => prefixOfL pat (c :: rest) || infixOf pat rest

/-! ### The spec-side Report shape (§3 of the specification)

`specReportShapeOk` is modelled from the spec's words, not from the source:
it is the value-shape table of §3 (non-empty strings, `{source, finding}`
entries, `design` + non-empty `steps`, `summary` + non-empty `table` of
`metric`/`baseline`/`proposed` rows, non-empty string sequences, `datasets`
and `tools` both non-empty), used to compare what the code actually
guarantees against the shapes the spec states. -/
def isNonEmptyStr : JsonV → Bool
  | .str s => !s.data.isEmpty
  | _ => false

def isStrSeq : JsonV → Bool
  | .arr l => !l.isEmpty && l.all (fun e => match e with | .str _ => true | _ => false)
  | _ => false

def isLitEntry : JsonV → Bool
  | .obj f =>
    (match objLookup f "source" with | some (.str _) => true | _ => false) &&
    (match objLookup f "finding" with | some (.str _) => true | _ => false)
  | _ => false

def isTableRow : JsonV → Bool
  | .obj f =>
    (match objLookup f "metric" with | some (.str _) => true | _ => false) &&
    (match objLookup f "baseline" with | some (.str _) => true | _ => false) &&
    (match objLookup f "proposed" with | some (.str _) => true | _ => false)
  | _ => false

def fieldSatisfies (fields : List (String × JsonV)) (k : String) (p : JsonV → Bool) : Bool :=
  match objLookup fields k with
  | some v => p v
  | none => false

/-- Modelled from the spec: the §3 value-shape invariant for a Report. -/
def specReportShapeOk : JsonV → Bool
  | .obj fields =>
    fieldSatisfies fields "abstract" isNonEmptyStr &&
    fieldSatisfies fields "introduction" isNonEmptyStr &&
    fieldSatisfies fields "literature_review"
      (fun v => match v with
        | .arr l => !l.isEmpty && l.all isLitEntry
        | _ => false) &&
    fieldSatisfies fields "research_gaps" isStrSeq &&
    fieldSatisfies fields "methodology"
      (fun v => match v with
        | .obj m => fieldSatisfies m "design" isNonEmptyStr &&
                    fieldSatisfies m "steps" isStrSeq
        | _ => false) &&
    fieldSatisfies fields "simulated_results"
      (fun v => match v with
        | .obj m => fieldSatisfies m "summary" isNonEmptyStr &&
                    fieldSatisfies m "table"
                      (fun t => match t with
                        | .arr l => !l.isEmpty && l.all isTableRow
                        | _ => false)
        | _ => false) &&
    fieldSatisfies fields "conclusion" isNonEmptyStr &&
    fieldSatisfies fields "references" isStrSeq &&
    fieldSatisfies fields "ppt_outline" isStrSeq &&
    fieldSatisfies fields "viva_questions" isStrSeq &&
    fieldSatisfies fields "datasets_and_tools"
      (fun v => match v with
        | .obj m => fieldSatisfies m "datasets" isStrSeq &&
                    fieldSatisfies m "tools" isStrSeq
        | _ => false)
  | _ => false

/-! ### Characterizing `build_user_prompt` on newline-free inputs

The f-string is interpolated before `dedent` runs, so the template's shape —
and hence the margin `dedent` strips — depends on the inputs.  For inputs
without a newline character the template keeps its 12-space margin and the
pipeline reduces to plain interpolation into the dedented template. -/
/-- The template line carrying the topic, without its terminating newline. -/
def upLine1 : List Char := "            Student topic: ".data

/-- The template line carrying the query, without its terminating newline. -/
def upLine2 : List Char := "            Student research query: ".data

/-- The template after the query interpolation point. -/
def upTail : List Char := "\n\n            Return JSON with these keys exactly:\n            abstract, introduction, literature_review, research_gaps,\n            methodology, simulated_results, conclusion, references,\n            ppt_outline, viva_questions, datasets_and_tools.\n\n            Requirements:\n            - literature_review must include source + finding entries from: Google Scholar, IEEE Xplore, PubMed\n            - methodology must include design + steps\n            - simulated_results must include summary + table[] with metric, baseline, proposed\n            - references must be a list of citation strings\n            - datasets_and_tools must include datasets[] and tools[]\n            ".data

def upTailRest : List (List Char) := (splitLines upTail).tail

/-- The 12-space margin that `dedent` finds in the user-prompt template. -/
def sp12 : List Char := "            ".data

/-- The query template line after margin removal. -/
def upMid : List Char := "Student research query: ".data

/-- The dedented template tail lines after the query line. -/
def dedTail : List (List Char) := (upTailRest.map normalizeWs).map (stripMargin sp12)

/-- The joined dedented template tail. -/
def jtData : List Char := "\nReturn JSON with these keys exactly:\nabstract, introduction, literature_review, research_gaps,\nmethodology, simulated_results, conclusion, references,\nppt_outline, viva_questions, datasets_and_tools.\n\nRequirements:\n- literature_review must include source + finding entries from: Google Scholar, IEEE Xplore, PubMed\n- methodology must include design + steps\n- simulated_results must include summary + table[] with metric, baseline, proposed\n- references must be a list of citation strings\n- datasets_and_tools must include datasets[] and tools[]\n".data

def tgtPre : List Char := "Student topic: ".data

def tgtMid : List Char := "\nStudent research query: ".data

def tgtPost : List Char := "\n\nReturn JSON with these keys exactly:\nabstract, introduction, literature_review, research_gaps,\nmethodology, simulated_results, conclusion, references,\nppt_outline, viva_questions, datasets_and_tools.\n\nRequirements:\n- literature_review must include source + finding entries from: Google Scholar, IEEE Xplore, PubMed\n- methodology must include design + steps\n- simulated_results must include summary + table[] with metric, baseline, proposed\n- references must be a list of citation strings\n- datasets_and_tools must include datasets[] and tools[]".data

/-- The dedented, stripped user prompt for newline-free inputs. -/
def userPromptTarget (topic query : String) : String :=
  "Student topic: " ++ topic ++ "\nStudent research query: " ++ query ++ "\n\nReturn JSON with these keys exactly:\nabstract, introduction, literature_review, research_gaps,\nmethodology, simulated_results, conclusion, references,\nppt_outline, viva_questions, datasets_and_tools.\n\nRequirements:\n- literature_review must include source + finding entries from: Google Scholar, IEEE Xplore, PubMed\n- methodology must include design + steps\n- simulated_results must include summary + table[] with metric, baseline, proposed\n- references must be a list of citation strings\n- datasets_and_tools must include datasets[] and tools[]"

/-! ### Concrete environments used by the claim theorems -/
/-- No credential configured; the network (never reached) would fail. -/
def envNoKey : Env := ⟨fun _ => none, .transportError⟩

/-- Whitespace-only credential. -/
def envWsKey : Env :=
  ⟨fun n => if n == "OPENAI_API_KEY" then some "   " else none, .transportError⟩

def testGetenv : String → Option String :=
  fun n => if n == "OPENAI_API_KEY" then some "sk-test" else none

/-- Credential set; the endpoint answers 200 with body `{"choices": []}`. -/
def envEmptyChoices : Env :=
  ⟨testGetenv, .body (.obj [("choices", .arr [])])⟩

/-- Credential set; the first choice's message content is the JSON text
`[1, 2]`, which parses to a list, not an object. -/
def envListContent : Env :=
  ⟨testGetenv,
   .body (.obj [("choices",
     .arr [.obj [("message", .obj [("content", .str "[1, 2]")])]])])⟩

/-- A response content carrying all eleven required keys with values of the
wrong shapes (every value is a number). -/
def badShapeContent : String :=
  "\x7b\"abstract\": 1, \"introduction\": 2, \"literature_review\": 3, \"research_gaps\": 4, \"methodology\": 5, \"simulated_results\": 6, \"conclusion\": 7, \"references\": 8, \"ppt_outline\": 9, \"viva_questions\": 10, \"datasets_and_tools\": 11\x7d"

def badShapeFields : List (String × JsonV) :=
  [("abstract", .num 1), ("introduction", .num 2), ("literature_review", .num 3),
   ("research_gaps", .num 4), ("methodology", .num 5), ("simulated_results", .num 6),
   ("conclusion", .num 7), ("references", .num 8), ("ppt_outline", .num 9),
   ("viva_questions", .num 10), ("datasets_and_tools", .num 11)]

def envBadShape : Env :=
  ⟨testGetenv,
   .body (.obj [("choices",
     .arr [.obj [("message", .obj [("content", .str badShapeContent)])]])])⟩

/-- A response content carrying the eleven required keys plus its own
`prompt_debug` key. -/
def pdContent : String :=
  "\x7b\"abstract\": 1, \"introduction\": 2, \"literature_review\": 3, \"research_gaps\": 4, \"methodology\": 5, \"simulated_results\": 6, \"conclusion\": 7, \"references\": 8, \"ppt_outline\": 9, \"viva_questions\": 10, \"datasets_and_tools\": 11, \"prompt_debug\": \"from provider\"\x7d"

def pdFields : List (String × JsonV) :=
  badShapeFields ++ [("prompt_debug", .str "from provider")]

def envProviderDebug : Env :=
  ⟨testGetenv,
   .body (.obj [("choices",
     .arr [.obj [("message", .obj [("content", .str pdContent)])]])])⟩

example : build_system_prompt =
    "You are a scientific research assistant for students.\nProduce rigorous yet easy-to-understand outputs.\nInclude evidence-oriented literature analysis, research gap detection,\na feasible student-level methodology, simulated quantitative results,\nreferences, PPT outline, viva questions, and tools/datasets suggestions.\nReturn valid JSON only." := by
  rfl

example : jsonParse " \x7b\"a\": [1, -2, \"x\"], \"a\": null\x7d " =
    some (.obj [("a", .null)]) := by rfl

example : jsonParse "\x7b\"choices\": []\x7d" =
    some (.obj [("choices", .arr [])]) := by rfl

example : jsonParse "[1, 2" = none := by rfl

theorem prefixOfL_self_append (m b : List Char) : prefixOfL m (m ++ b) = true := by
  induction m with
  | nil => rfl
  | cons c cs ih => simp [prefixOfL, ih]

theorem infixOf_of_prefixOfL (pat l : List Char) (h : prefixOfL pat l = true) :
    infixOf pat l = true := by
  cases l with
  | nil =>
    cases pat with
    | nil => rfl
    | cons p ps => simp [prefixOfL] at h
  | cons c rest => simp [infixOf, h]

theorem infixOf_append_left (pat l₁ l₂ : List Char) (h : infixOf pat l₂ = true) :
    infixOf pat (l₁ ++ l₂) = true := by
  induction l₁ with
  | nil => simpa using h
  | cons c cs ih => simp [infixOf, ih]

theorem infixOf_sandwich (a m b : List Char) : infixOf m (a ++ (m ++ b)) = true :=
  infixOf_append_left m a (m ++ b) (infixOf_of_prefixOfL m (m ++ b) (prefixOfL_self_append m b))

/-! ### Dedent/strip lemmas for parametric inputs -/
theorem splitLines_ne_nil (l : List Char) : splitLines l ≠ [] := by
  induction l with
  | nil => simp [splitLines]
  | cons c rest ih =>
    simp only [splitLines]
    split
    · simp
    · split
      · simp
      · simp

theorem splitLines_cons_nl (l : List Char) :
    splitLines ('\n' :: l) = [] :: splitLines l := by
  simp [splitLines]

theorem splitLines_chunk (l₁ l₂ : List Char)
    (h : l₁.all (fun c => c != '\n') = true) :
    splitLines (l₁ ++ l₂) = (splitLines l₂).modifyHead (fun x => l₁ ++ x) := by
  induction l₁ with
  | nil =>
    cases hsp : splitLines l₂ with
    | nil => exact absurd hsp (splitLines_ne_nil l₂)
    | cons a as => simp [List.modifyHead, hsp]
  | cons c cs ih =>
    rw [List.all_cons, Bool.and_eq_true] at h
    have hc : (c == '\n') = false := by
      have := h.1
      simp [bne] at this
      simp [this]
    rw [List.cons_append]
    simp only [splitLines, hc, if_false]
    rw [ih h.2]
    cases hsp : splitLines l₂ with
    | nil => exact absurd hsp (splitLines_ne_nil l₂)
    | cons a as => simp [List.modifyHead]

theorem rstripL_append (l₁ l₂ : List Char) (h : rstripL l₂ ≠ []) :
    rstripL (l₁ ++ l₂) = l₁ ++ rstripL l₂ := by
  induction l₁ with
  | nil => simp
  | cons c cs ih =>
    rw [List.cons_append]
    simp only [rstripL]
    rw [ih]
    cases hcc : cs ++ rstripL l₂ with
    | nil =>
      rw [List.append_eq_nil] at hcc
      exact absurd hcc.2 h
    | cons a as => simp [hcc]

theorem joinLines_cons (l : List Char) (ls : List (List Char)) (h : ls ≠ []) :
    joinLines (l :: ls) = l ++ ('\n' :: joinLines ls) := by
  cases ls with
  | nil => exact absurd rfl h
  | cons a as => rfl

theorem dedentLines_margin (lines : List (List Char)) (m : List Char)
    (hm : marginOf (((lines.map normalizeWs).filter (fun l => !l.isEmpty)).map indentOf) = m)
    (hne : m.isEmpty = false) :
    dedentLines lines = (lines.map normalizeWs).map (stripMargin m) := by
  simp only [dedentLines]
  rw [hm, hne]
  simp

theorem user_prompt_data (td qd : List Char)
    (ht : td.all (fun c => c != '\n') = true)
    (hq : qd.all (fun c => c != '\n') = true) :
    (build_user_prompt ⟨td⟩ ⟨qd⟩).data =
      tgtPre ++ (td ++ (tgtMid ++ (qd ++ tgtPost))) := by
  have hdata : (build_user_prompt ⟨td⟩ ⟨qd⟩).data
      = rstripL (List.dropWhile pyWsChar (joinLines (dedentLines (splitLines
          (((("\n            Student topic: ".data ++ td) ++
             "\n            Student research query: ".data) ++ qd) ++ upTail))))) := rfl
  rw [hdata, List.append_assoc, List.append_assoc, List.append_assoc]
  show rstripL (List.dropWhile pyWsChar (joinLines (dedentLines (splitLines
      ('\n' :: (upLine1 ++ (td ++ ('\n' :: (upLine2 ++ (qd ++ upTail)))))))))) =
    tgtPre ++ (td ++ (tgtMid ++ (qd ++ tgtPost)))
  rw [splitLines_cons_nl]
  rw [splitLines_chunk upLine1 _ (by decide)]
  rw [splitLines_chunk td _ ht]
  rw [splitLines_cons_nl]
  rw [splitLines_chunk upLine2 _ (by decide)]
  rw [splitLines_chunk qd _ hq]
  have hTail : splitLines upTail = [] :: upTailRest := rfl
  rw [hTail]
  simp only [List.modifyHead, List.append_nil]
  rw [dedentLines_margin ([] :: (upLine1 ++ td) :: (upLine2 ++ qd) :: upTailRest) sp12 rfl rfl]
  have hnorm : ([] :: (upLine1 ++ td) :: (upLine2 ++ qd) :: upTailRest).map normalizeWs
      = [] :: (upLine1 ++ td) :: (upLine2 ++ qd) :: upTailRest.map normalizeWs := rfl
  rw [hnorm]
  have hstrip : ([] :: (upLine1 ++ td) :: (upLine2 ++ qd) :: upTailRest.map normalizeWs).map
        (stripMargin sp12)
      = [] :: (tgtPre ++ td) :: (upMid ++ qd) :: dedTail := rfl
  rw [hstrip]
  rw [joinLines_cons _ _ (by simp), joinLines_cons _ _ (by simp),
      joinLines_cons _ _ (by decide)]
  have hJT : joinLines dedTail = jtData := rfl
  rw [hJT]
  show rstripL (tgtPre ++ (td ++ (tgtMid ++ (qd ++ (tgtPost ++ ('\n' :: [])))))) =
    tgtPre ++ (td ++ (tgtMid ++ (qd ++ tgtPost)))
  have hpost : rstripL (tgtPost ++ ('\n' :: [])) = tgtPost := by rfl
  have hpostne : rstripL (tgtPost ++ ('\n' :: [])) ≠ [] := by
    rw [hpost]; decide
  have hq1 : rstripL (qd ++ (tgtPost ++ ('\n' :: []))) = qd ++ tgtPost := by
    rw [rstripL_append _ _ hpostne, hpost]
  have hq1ne : rstripL (qd ++ (tgtPost ++ ('\n' :: []))) ≠ [] := by
    rw [hq1]
    intro hX
    rw [List.append_eq_nil] at hX
    exact absurd hX.2 (by decide)
  have hm : rstripL (tgtMid ++ (qd ++ (tgtPost ++ ('\n' :: [])))) =
      tgtMid ++ (qd ++ tgtPost) := by
    rw [rstripL_append _ _ hq1ne, hq1]
  have hmne : rstripL (tgtMid ++ (qd ++ (tgtPost ++ ('\n' :: [])))) ≠ [] := by
    rw [hm]
    intro hX
    rw [List.append_eq_nil] at hX
    exact absurd hX.1 (by decide)
  have ht1 : rstripL (td ++ (tgtMid ++ (qd ++ (tgtPost ++ ('\n' :: []))))) =
      td ++ (tgtMid ++ (qd ++ tgtPost)) := by
    rw [rstripL_append _ _ hmne, hm]
  have ht1ne : rstripL (td ++ (tgtMid ++ (qd ++ (tgtPost ++ ('\n' :: []))))) ≠ [] := by
    rw [ht1]
    intro hX
    rw [List.append_eq_nil, List.append_eq_nil] at hX
    exact absurd hX.2.1 (by decide)
  rw [rstripL_append _ _ ht1ne, ht1]

theorem string_eq_of_data (a b : String) (h : a.data = b.data) : a = b := by
  cases a
  cases b
  exact congrArg String.mk h

theorem build_user_prompt_eq (t q : String)
    (ht : t.data.all (fun c => c != '\n') = true)
    (hq : q.data.all (fun c => c != '\n') = true) :
    build_user_prompt t q = userPromptTarget t q := by
  obtain ⟨td⟩ := t
  obtain ⟨qd⟩ := q
  apply string_eq_of_data
  rw [user_prompt_data td qd ht hq]
  have hrhs : (userPromptTarget ⟨td⟩ ⟨qd⟩).data
      = (((tgtPre ++ td) ++ tgtMid) ++ qd) ++ tgtPost := rfl
  rw [hrhs, List.append_assoc, List.append_assoc, List.append_assoc]

/-! ### Inversion lemmas for the external path -/
theorem checkRequired_ok_some (parsed v : JsonV)
    (h : checkRequired parsed = .ok (some v)) :
    ∃ fields, v = .obj fields ∧ hasAllRequiredKeys fields = true := by
  cases parsed with
  | obj fields =>
    by_cases hk : hasAllRequiredKeys fields = true
    · refine ⟨fields, ?_, hk⟩
      simp [checkRequired, hk] at h
      exact h.symm
    · simp [checkRequired, hk] at h
  | null => simp [checkRequired] at h
  | bool b => simp [checkRequired] at h
  | num n => simp [checkRequired] at h
  | str s => simp [checkRequired] at h
  | arr l => simp [checkRequired] at h

theorem tryBlock_ok_some (net : NetResult) (v : JsonV)
    (h : tryBlock net = .ok (some v)) :
    ∃ fields, v = .obj fields ∧ hasAllRequiredKeys fields = true := by
  cases net with
  | transportError => simp [tryBlock] at h
  | httpStatusError => simp [tryBlock] at h
  | timeout => simp [tryBlock] at h
  | bodyNotUtf8 => simp [tryBlock] at h
  | bodyNotJson => simp [tryBlock] at h
  | body raw =>
    simp only [tryBlock] at h
    iterate 5
      (split at h
       next => simp at h)
    exact checkRequired_ok_some _ _ h

theorem try_result_ok_some (env : Env) (t q : String) (v : JsonV)
    (h : (try_openai_json env t q).result = .ok (some v)) :
    ∃ fields, v = .obj fields ∧ hasAllRequiredKeys fields = true := by
  by_cases hkey : (pyStrip (osGetenv env "OPENAI_API_KEY" "") == "") = true
  · simp [try_openai_json, hkey] at h
  · cases hb : tryBlock env.net with
    | error e =>
      by_cases hc : caughtByExcept e = true <;>
        simp [try_openai_json, hkey, hb, hc] at h
    | ok r =>
      simp [try_openai_json, hkey, hb] at h
      rw [h] at hb
      exact tryBlock_ok_some env.net v hb

theorem hasAll_truthy (fields : List (String × JsonV))
    (hk : hasAllRequiredKeys fields = true) : pyTruthy (.obj fields) = true := by
  cases fields with
  | nil => exact absurd hk (by decide)
  | cons a as => simp [pyTruthy]

theorem generate_report_external (env : Env) (t q : String) (v : JsonV)
    (h : (try_openai_json env t q).result = .ok (some v)) :
    generate_report env t q = .ok v := by
  obtain ⟨fields, hv, hk⟩ := try_result_ok_some env t q v h
  subst hv
  simp [generate_report, h, hasAll_truthy fields hk]

theorem generate_report_fallback (env : Env) (t q : String)
    (h : (try_openai_json env t q).result = .ok none) :
    generate_report env t q = .ok (fallback_with_debug t q) := by
  simp [generate_report, h]

example : jsonParse badShapeContent = some (.obj badShapeFields) := by rfl

example : jsonParse pdContent = some (.obj pdFields) := by rfl

/-! ### Claim theorems -/
/-- C1: the claim states `generate_report` returns a Report with all eleven
required keys for every external outcome.  The code violates it: with a
credential configured and a 200-response whose body is the valid JSON
`\x7b"choices": []\x7d`, the subscript `raw["choices"][0]` raises `IndexError`,
which the `except` tuple at line 188 does not catch, so `generate_report`
raises instead of returning a Report. -/
theorem c1_generate_report_raises_on_empty_choices :
    generate_report envEmptyChoices "Computer Vision"
      "How can students improve defect detection?" = .error .indexError := by
  rfl

/-- C2: the claim states `_try_openai_json` never signals an error to its
caller.  The code violates it: when the embedded message content parses to a
non-object JSON value (here the list `[1, 2]`), `set(parsed.keys())` raises
`AttributeError`, which is not in the `except` tuple and propagates. -/
theorem c2_try_openai_json_raises_on_non_object_content :
    try_openai_json envListContent "Edge AI" "How to optimize edge inference?"
      = ⟨.error .attributeError, 1⟩ := by
  rfl

/-- C5: with the credential absent or set to the empty string,
`_try_openai_json` returns `None` immediately and performs zero network
calls. -/
theorem c5_short_circuit_no_credential (env : Env) (t q : String)
    (h : env.getenv "OPENAI_API_KEY" = none ∨ env.getenv "OPENAI_API_KEY" = some "") :
    try_openai_json env t q = ⟨.ok none, 0⟩ := by
  have hk : pyStrip (osGetenv env "OPENAI_API_KEY" "") = "" := by
    rcases h with h | h <;> simp only [osGetenv, h, Option.getD] <;> rfl
  unfold try_openai_json
  rw [hk]
  rfl

/-- C5 witness: no credential at all. -/
theorem c5_witness :
    try_openai_json envNoKey "Computer Vision"
      "How can students improve defect detection?" = ⟨.ok none, 0⟩ :=
  c5_short_circuit_no_credential envNoKey "Computer Vision"
    "How can students improve defect detection?" (Or.inl rfl)

/-- C6: the schema validation at lines 186-187 is a pure superset check on
key names: a parsed object containing every required key is returned
unchanged (extra keys tolerated, values untouched); a parsed object missing
a required key yields `None` even though parsing succeeded. -/
theorem c6_schema_superset_check (fields : List (String × JsonV)) :
    (hasAllRequiredKeys fields = true →
      checkRequired (.obj fields) = .ok (some (.obj fields)))
  ∧ (hasAllRequiredKeys fields = false →
      checkRequired (.obj fields) = .ok none) := by
  constructor <;> intro h <;> simp [checkRequired, h]

/-- C6 witness: an object with all eleven keys plus an extra key passes the
check and is returned unchanged. -/
theorem c6_witness :
    checkRequired (.obj (badShapeFields ++ [("extra", .num 7)]))
      = .ok (some (.obj (badShapeFields ++ [("extra", .num 7)]))) :=
  (c6_schema_superset_check (badShapeFields ++ [("extra", .num 7)])).1 (by rfl)

/-- C8: the fallback generator is a pure function of its two string
arguments — its embedding takes no `Env` and reads no ambient state, so two
calls with identical inputs give identical reports. -/
theorem c8_fallback_deterministic (t q : String) :
    fallback_report t q = fallback_report t q := rfl

/-- C10: a whitespace-only credential is stripped to the empty string, so
`_try_openai_json` short-circuits to `None` with zero network calls, the
same as an absent credential. -/
theorem c10_whitespace_credential (env : Env) (t q s : String)
    (hv : env.getenv "OPENAI_API_KEY" = some s)
    (hws : s.data.all pyWsChar = true) :
    try_openai_json env t q = ⟨.ok none, 0⟩ := by
  have hstrip : pyStrip s = "" := by
    obtain ⟨sd⟩ := s
    show (⟨rstripL (sd.dropWhile pyWsChar)⟩ : String) = ""
    have hdw : sd.dropWhile pyWsChar = [] := by
      rw [List.dropWhile_eq_nil_iff]
      intro x hx
      exact List.all_eq_true.mp hws x hx
    rw [hdw]
    rfl
  have hk : pyStrip (osGetenv env "OPENAI_API_KEY" "") = "" := by
    simp only [osGetenv, hv, Option.getD]
    exact hstrip
  unfold try_openai_json
  rw [hk]
  rfl

/-- C10 witness: a three-space credential. -/
theorem c10_witness : try_openai_json envWsKey "NLP" "Topic" = ⟨.ok none, 0⟩ :=
  c10_whitespace_credential envWsKey "NLP" "Topic" "   " rfl (by rfl)

/-- Helper: a free string interpolated between two fixed strings occurs in
the result. -/
theorem infix_str_sandwich (a b : String) (td : List Char) :
    infixOf td ((a ++ (⟨td⟩ : String) ++ b).data) = true := by
  have h : ((a ++ (⟨td⟩ : String) ++ b)).data = (a.data ++ td) ++ b.data := by
    cases a
    cases b
    rfl
  rw [h, List.append_assoc]
  exact infixOf_sandwich a.data td b.data

/-- C7: the fallback `literature_review` is exactly the three entries of
`_simulate_sources`, attributed in order to Google Scholar, IEEE Xplore and
PubMed, and each synthetic finding contains the topic verbatim. -/
theorem c7_fallback_literature_review (t q : String) :
    objLookup (fallback_report_fields t q) "literature_review"
      = some (.arr
        [.obj [("source", .str "Google Scholar"),
               ("finding", .str ("Recent studies on " ++ t ++ " show measurable gains from hybrid and retrieval-augmented AI pipelines."))],
         .obj [("source", .str "IEEE Xplore"),
               ("finding", .str ("Engineering papers report trade-offs between model accuracy, latency, and deployment cost in " ++ t ++ " systems."))],
         .obj [("source", .str "PubMed"),
               ("finding", .str ("Human-impact studies emphasize ethics, safety, and reproducibility for " ++ t ++ "-related interventions."))]])
  ∧ infixOf t.data ("Recent studies on " ++ t ++ " show measurable gains from hybrid and retrieval-augmented AI pipelines.").data = true
  ∧ infixOf t.data ("Engineering papers report trade-offs between model accuracy, latency, and deployment cost in " ++ t ++ " systems.").data = true
  ∧ infixOf t.data ("Human-impact studies emphasize ethics, safety, and reproducibility for " ++ t ++ "-related interventions.").data = true := by
  obtain ⟨td⟩ := t
  exact ⟨rfl, infix_str_sandwich _ _ td, infix_str_sandwich _ _ td,
         infix_str_sandwich _ _ td⟩

/-- C3 counterexample: the code violates the shape half of the claim.  An
external 200-response whose content has all eleven keys mapped to numbers
passes the key-presence check and is returned by `generate_report`
unchanged, although it satisfies none of the §3 value shapes. -/
theorem c3_counterexample_external_shape_unchecked :
    generate_report envBadShape "NLP" "Topic" = .ok (.obj badShapeFields)
  ∧ specReportShapeOk (.obj badShapeFields) = false := by
  exact ⟨rfl, rfl⟩

/-- C3 (amended): every Report `generate_report` returns carries all eleven
required keys, and a Report produced by the fallback path additionally
satisfies all §3 value shapes; the external path guarantees key presence
only. -/
theorem c3_report_keys_always_fallback_shapes :
    (∀ (env : Env) (t q : String) (r : JsonV), generate_report env t q = .ok r →
       ∃ fields, r = .obj fields ∧ hasAllRequiredKeys fields = true)
  ∧ (∀ t q : String, specReportShapeOk (fallback_with_debug t q) = true) := by
  constructor
  · intro env t q r h
    cases hres : (try_openai_json env t q).result with
    | error e => simp [generate_report, hres] at h
    | ok o =>
      cases o with
      | none =>
        simp [generate_report, hres] at h
        exact ⟨objSetItem (fallback_report_fields t q) "prompt_debug"
                 (prompt_debug_obj t q), h.symm, by rfl⟩
      | some v =>
        obtain ⟨fields, hv, hk⟩ := try_result_ok_some env t q v hres
        subst hv
        simp [generate_report, hres, hasAll_truthy fields hk] at h
        exact ⟨fields, h.symm, hk⟩
  · intro t q
    obtain ⟨td⟩ := t
    cases td with
    | nil => rfl
    | cons c cs => rfl

/-- C3 witness: the fallback path at a concrete input. -/
theorem c3_witness :
    ∃ fields, fallback_with_debug "NLP" "Topic" = .obj fields
      ∧ hasAllRequiredKeys fields = true :=
  c3_report_keys_always_fallback_shapes.1 envNoKey "NLP" "Topic"
    (fallback_with_debug "NLP" "Topic") (by rfl)

/-- C4 counterexample: the "no `prompt_debug` key at all on the external
path" half of the claim fails: the external object is returned verbatim, so
a provider response that itself carries a `prompt_debug` key yields a
Report with that key present on the external path. -/
theorem c4_counterexample_external_can_carry_prompt_debug :
    generate_report envProviderDebug "NLP" "Topic" = .ok (.obj pdFields)
  ∧ objLookup pdFields "prompt_debug" = some (.str "from provider") := by
  exact ⟨rfl, rfl⟩

/-- C4 (amended): on the fallback path the Report is the fallback fields
with `prompt_debug = {system_prompt, user_prompt, source: "fallback"}`
appended, the prompt fields being exactly the `PromptEngine` outputs for the
same topic and query; on the external path the external object is returned
exactly as received, with no `prompt_debug` key added (one is present only
if the provider included it). -/
theorem c4_provenance_tagging (env : Env) (t q : String) :
    ((try_openai_json env t q).result = .ok none →
       generate_report env t q = .ok (fallback_with_debug t q)
     ∧ objLookup (objSetItem (fallback_report_fields t q) "prompt_debug"
           (prompt_debug_obj t q)) "prompt_debug"
         = some (.obj [("system_prompt", .str build_system_prompt),
                       ("user_prompt", .str (build_user_prompt t q)),
                       ("source", .str "fallback")]))
  ∧ (∀ v : JsonV, (try_openai_json env t q).result = .ok (some v) →
       generate_report env t q = .ok v) := by
  constructor
  · intro h
    exact ⟨generate_report_fallback env t q h, by rfl⟩
  · intro v h
    exact generate_report_external env t q v h

/-- C4 witness: the fallback path at a concrete input. -/
theorem c4_witness :
    generate_report envNoKey "Computer Vision"
        "How can students improve defect detection?"
      = .ok (fallback_with_debug "Computer Vision"
        "How can students improve defect detection?") :=
  ((c4_provenance_tagging envNoKey "Computer Vision"
      "How can students improve defect detection?").1 (by rfl)).1

/-- C9 counterexample: the claim quantifies over every pair of strings, but
`dedent` runs after the f-string interpolation, so a topic containing a
newline followed by indentation loses part of that indentation to the margin
removal.  For topic `"A\n B"` the common margin of the interpolated template
collapses to one space, and the emitted prompt contains `"A\nB"` — the topic
no longer occurs verbatim. -/
theorem c9_counterexample_indented_topic_not_verbatim :
    infixOf "A\n B".data (build_user_prompt "A\n B" "q").data = false := by
  rfl

/-- C9 (amended): for every topic and query containing no newline character,
the user prompt contains the topic verbatim, the query verbatim, and each of
the eleven required key names spelled exactly. -/
theorem c9_user_prompt_contains (t q : String)
    (ht : t.data.all (fun c => c != '\n') = true)
    (hq : q.data.all (fun c => c != '\n') = true) :
    infixOf t.data (build_user_prompt t q).data = true
  ∧ infixOf q.data (build_user_prompt t q).data = true
  ∧ REQUIRED_KEYS.all (fun k => infixOf k.data (build_user_prompt t q).data) = true := by
  obtain ⟨td⟩ := t
  obtain ⟨qd⟩ := q
  have hd := user_prompt_data td qd ht hq
  refine ⟨?_, ?_, ?_⟩
  · rw [hd]
    exact infixOf_sandwich tgtPre td (tgtMid ++ (qd ++ tgtPost))
  · rw [hd, ← List.append_assoc, ← List.append_assoc]
    exact infixOf_sandwich ((tgtPre ++ td) ++ tgtMid) qd tgtPost
  · simp only [REQUIRED_KEYS, List.all_cons, List.all_nil, Bool.and_eq_true, hd,
      ← List.append_assoc]
    refine ⟨?_, ?_, ?_, ?_, ?_, ?_, ?_, ?_, ?_, ?_, ?_, trivial⟩ <;>
      exact infixOf_append_left _ _ tgtPost (by decide)

/-- C9 witness: a concrete newline-free pair. -/
theorem c9_witness :
    infixOf "Computer Vision".data
      (build_user_prompt "Computer Vision"
        "How can students improve defect detection?").data = true :=
  (c9_user_prompt_contains "Computer Vision"
    "How can students improve defect detection?" (by rfl) (by rfl)).1
